import Mathlib

/-!
Verification of the Rfmalloc core: a persistent, file-backed heap.

The embedding follows `src/inst/fmalloc/fmalloc.cpp` (open/attach lifecycle,
thread-local target, allocate/free entry points) and
`src/src/fmalloc.cpp` (the R binding `init_fmalloc_impl`).

The header `fmalloc.hpp` (struct `fm_super` and its methods, the constants
`FMALLOC_MAGIC`, `FMALLOC_OFF`, the default chunk size) and the modified
ptmalloc/dlmalloc allocator (`do_ptmalloc_init`, `dlmalloc`, `dlfree`) are not
part of the visible sources; those pieces are modelled from the spec, each
with a doc comment saying so.

Machine addresses, offsets and sizes are modelled as `Nat`; a null pointer is
address `0` (an mmap base is never `0`).  Thread-local state is a function
`ThreadId -> Nat` from thread ids to the thread's active base address.
-/

/-- Modelled from the spec: `FMALLOC_MAGIC` lives in the missing header
`fmalloc.hpp`.  The spec only says it is a fixed 64-bit sentinel marking an
already-initialised heap; the concrete value is immaterial to every claim,
any fixed nonzero 64-bit value works (a fresh zero-filled file must not
accidentally carry it). -/
def FMALLOC_MAGIC : Nat := 0x666d616c6c6f6321

/-- Modelled from the spec: the library-wide default commit granularity
(`chunk_size`) written at first open.  The concrete value is immaterial; it
only needs to be a fixed positive constant. -/
def FMALLOC_CHUNK_SIZE : Nat := 2097152

/-- Modelled from the spec: byte offset of the reserved 4-byte one-shot
init-flag field inside the superblock (`FMALLOC_OFF` in the missing header).
The embedding models the field itself (`fm_super.init_flag`), so the offset
value is only recorded for documentation. -/
def FMALLOC_OFF : Nat := 32

/-- The on-disk superblock (`struct fm_super` of the missing header),
modelled field-wise from the spec's layout table: `magic` (8 bytes),
`total_size` and `chunk_size` (platform words), the reserved 4-byte
`init_flag` at offset `FMALLOC_OFF` (`-1` means secondary init pending),
and the one-bit-per-chunk commit bitmap. -/
structure fm_super where
  magic : Nat
  total_size : Nat
  chunk_size : Nat
  init_flag : Int
  bitmap : Nat → Bool

/-- Modelled from the spec: `fm_super::set_total_size` is declared in the
missing header.  Per the spec, first-open setup "sets `total_size` to the
mapped file's length" and "sets `chunk_size` to a library-wide default";
this method is the only superblock write between the magic store and the
bitmap store in the visible init path, so both geometry stores live here. -/
def fm_super.set_total_size (s : fm_super) (len : Nat) : fm_super :=
  { s with total_size := len, chunk_size := FMALLOC_CHUNK_SIZE }

/-- Modelled from the spec: `fm_super::bitmap_set(i)` marks chunk `i`
committed in the bitmap. -/
def fm_super.bitmap_set (s : fm_super) (i : Nat) : fm_super :=
  { s with bitmap := fun j => if j = i then true else s.bitmap j }

/-- A free span or a live allocation inside the arena: offset and byte
length, both relative to the mapped base. -/
abbrev Span := Nat × Nat

/-- In-arena allocator state, modelled from the spec's Allocator component
(the concrete dlmalloc/ptmalloc sources are not under `src/`): a bounded
arena carved out of the mapped region past the header, a deterministic
free-list of spans, and the set of live allocations. -/
structure AllocState where
  arenaStart : Nat
  arenaEnd : Nat
  freeList : List Span
  live : List Span

/-- One mapped heap: the mapped length, the superblock overlaid on the first
bytes, and the allocator metadata living inside the mapping. -/
structure HeapState where
  len : Nat
  super : fm_super
  alloc : AllocState

/-- `struct fm_info`: the handle returned by `fmalloc_init`, bundling the
file descriptor and the mapped base address. -/
structure fm_info where
  fd : Int
  mem : Nat

/-- The three fatal environment failures of `fmalloc_init`
(`src/inst/fmalloc/fmalloc.cpp:87-102`): `stat` failure, `open` failure and
mapping failure all call `exit(1)` / fail the `assert`, so the function
never returns in those cases. -/
inductive FmFatal where
  | statFail
  | openFail
  | mmapFail
deriving DecidableEq, Repr

/-- Outcome flags for the system calls `fmalloc_init` performs, standing in
for the OS environment. -/
structure SysEnv where
  statOk : Bool
  openOk : Bool
  mmapOk : Bool

/-- Thread ids, indexing the `__thread` variable `__fm_addr_base`. -/
abbrev ThreadId := Nat

/-- The process-wide view of the thread-local `__fm_addr_base`
(`src/inst/fmalloc/fmalloc.cpp:29`): each thread's active heap base. -/
abbrev TlsBase := ThreadId → Nat

/-- The superblock writes of the fresh-open branch of `fmalloc_init`
(`src/inst/fmalloc/fmalloc.cpp:113-118`): store the magic sentinel, set the
geometry via `set_total_size`, mark chunk 0 committed, and store `-1` into
the init-flag field at `FMALLOC_OFF`. -/
def fresh_super (s : fm_super) (len : Nat) : fm_super :=
  let s := { s with magic := FMALLOC_MAGIC }
  let s := s.set_total_size len
  let s := s.bitmap_set 0
  { s with init_flag := -1 }

/-- Modelled from the spec: `do_ptmalloc_init(chunk_size)` (the modified
ptmalloc's second-stage setup, not under `src/`).  Per the spec the
init-flag is a "one-shot secondary init pending marker, `-1` initially" and
allocator arena setup is "one-time per-arena": when the flag reads `-1` the
allocator carves the region past the reserved chunk 0 into its arena
(one free span covering it) and consumes the flag; otherwise the persisted
allocator metadata is reused and nothing is written. -/
def do_ptmalloc_init (h : HeapState) : HeapState :=
  if h.super.init_flag = -1 then
    { h with
        super := { h.super with init_flag := 0 },
        alloc :=
          { arenaStart := h.super.chunk_size,
            arenaEnd := h.super.total_size,
            freeList := [(h.super.chunk_size, h.super.total_size - h.super.chunk_size)],
            live := [] } }
  else h

/-- `fmalloc_init` (`src/inst/fmalloc/fmalloc.cpp:34-127`): stat the file,
open it, map `len` bytes shared read-write (each failure is fatal), then if
the leading 8 bytes differ from `FMALLOC_MAGIC` run the fresh-open
superblock writes and set `*init = true` (the attach path leaves both the
superblock and the caller's flag untouched), record the mapped base as the
calling thread's `__fm_addr_base`, run `do_ptmalloc_init`, and return the
handle.  `base` is the address `mmap` returned; `heap` is the current file
content; `tls` the current thread-local bases. -/
def fmalloc_init (env : SysEnv) (tid : ThreadId) (base : Nat)
    (heap : HeapState) (init : Bool) (tls : TlsBase) :
    Except FmFatal (fm_info × Bool × HeapState × TlsBase) :=
  if !env.statOk then .error .statFail
  else if !env.openOk then .error .openFail
  else if !env.mmapOk then .error .mmapFail
  else if heap.super.magic ≠ FMALLOC_MAGIC then
    .ok (⟨0, base⟩, true,
         do_ptmalloc_init { heap with super := fresh_super heap.super heap.len },
         fun t => if t = tid then base else tls t)
  else
    .ok (⟨0, base⟩, init, do_ptmalloc_init heap,
         fun t => if t = tid then base else tls t)

/-- `fmalloc_set_target` (`src/inst/fmalloc/fmalloc.cpp:129-132`): store the
handle's mapped base into the calling thread's `__fm_addr_base`. -/
def fmalloc_set_target (tid : ThreadId) (fi : fm_info) (tls : TlsBase) : TlsBase :=
  fun t => if t = tid then fi.mem else tls t

/-- Modelled from the spec: the allocator's placement search (dlmalloc is
not under `src/`).  The spec requires a deterministic free-list/bin search;
this is a first-fit scan returning the chosen offset and the free list with
the chosen span consumed (split when larger than the request). -/
def allocFirstFit : List Span → Nat → Option (Nat × List Span)
  | [], _ => none
  | (off, sz) :: rest, n =>
    if n ≤ sz then
      some (off, if sz = n then rest else (off + n, sz - n) :: rest)
    else
      match allocFirstFit rest n with
      | none => none
      | some (p, rest') => some (p, (off, sz) :: rest')

/-- Modelled from the spec: `dlmalloc(size)` at offset level — deterministic
first-fit over the arena's free list; on success the span becomes live, on
exhaustion the result is null and the state unchanged. -/
def dlmalloc (s : AllocState) (n : Nat) : Option Nat × AllocState :=
  match allocFirstFit s.freeList n with
  | none => (none, s)
  | some (off, fl') =>
    (some off, { s with freeList := fl', live := (off, n) :: s.live })

/-- Modelled from the spec: `dlfree(addr)` — free of a null pointer is a
no-op; otherwise the live span whose absolute address is `addr` (resolved
against the active base, `activeBase + storedOffset`) returns to the free
structures for reuse. -/
def dlfree (base : Nat) (s : AllocState) (addr : Nat) : AllocState :=
  if addr = 0 then s
  else
    match s.live.find? (fun pr => base + pr.1 == addr) with
    | none => s
    | some pr =>
      { s with
          live := s.live.eraseP (fun q => base + q.1 == addr),
          freeList := pr :: s.freeList }

/-- `fmalloc(size)` (`src/inst/fmalloc/fmalloc.cpp:134-137`): delegate to
`dlmalloc`; returned pointers are absolute, rebased against the calling
thread's `__fm_addr_base`. -/
def fmalloc (tls : TlsBase) (tid : ThreadId) (s : AllocState) (n : Nat) :
    Option Nat × AllocState :=
  match dlmalloc s n with
  | (some off, s') => (some (tls tid + off), s')
  | (none, s') => (none, s')

/-- `ffree(addr)` (`src/inst/fmalloc/fmalloc.cpp:139-142`): delegate to
`dlfree` under the calling thread's active base. -/
def ffree (tls : TlsBase) (tid : ThreadId) (s : AllocState) (addr : Nat) :
    AllocState :=
  dlfree (tls tid) s addr

/-- Well-formed allocator state: every free span lies inside the arena and
the arena lies inside the mapped heap (`arenaEnd` is bounded by the caller's
`total_size` where needed). -/
def AllocState.WF (s : AllocState) : Prop :=
  ∀ pr ∈ s.freeList, s.arenaStart ≤ pr.1 ∧ pr.1 + pr.2 ≤ s.arenaEnd

instance (s : AllocState) : Decidable s.WF := by
  unfold AllocState.WF; infer_instance

/-- Projection: the `wasFresh` boolean of an `fmalloc_init` outcome. -/
def openWasFresh (r : Except FmFatal (fm_info × Bool × HeapState × TlsBase)) :
    Option Bool :=
  match r with
  | .ok (_, b, _, _) => some b
  | .error _ => none

/-- Projection: the heap state after an `fmalloc_init` outcome. -/
def openHeap (r : Except FmFatal (fm_info × Bool × HeapState × TlsBase)) :
    Option HeapState :=
  match r with
  | .ok (_, _, h, _) => some h
  | .error _ => none

/-- Projection: the thread-local bases after an `fmalloc_init` outcome. -/
def openTls (r : Except FmFatal (fm_info × Bool × HeapState × TlsBase)) :
    Option TlsBase :=
  match r with
  | .ok (_, _, _, tls) => some tls
  | .error _ => none

/-- Projection: whether `fmalloc_init` returned a handle at all (the fatal
environment failures never return one). -/
def openReturns (r : Except FmFatal (fm_info × Bool × HeapState × TlsBase)) :
    Bool :=
  match r with
  | .ok _ => true
  | .error _ => false

/-- Result of an R `.Call` entry point: a logical scalar, an `Rf_error`
long-jump, or a process abort from inside the core. -/
inductive RRet where
  | logical : Bool → RRet
  | rerror : RRet
  | fatal : RRet
deriving DecidableEq, Repr

/-- The binding-layer state around `init_fmalloc_impl`
(`src/src/fmalloc.cpp`): the `global_fm_info` pointer, the backing heap,
the thread-local bases, and a count of `Rf_warning` calls issued. -/
structure BindState where
  global_fm_info : Option fm_info
  heap : HeapState
  tls : TlsBase
  warnings : Nat

/-- `init_fmalloc_impl` (`src/src/fmalloc.cpp:274-313`): if
`global_fm_info` is already set, warn ("fmalloc already initialized") and
return `ScalarLogical(FALSE)` without touching anything else; otherwise
validate the path argument (`Rf_error` on failure), call
`fmalloc_init(filepath, &init_flag)` with `init_flag` starting `false`,
store the handle into `global_fm_info` and return the flag. -/
def init_fmalloc_impl (env : SysEnv) (tid : ThreadId) (base : Nat)
    (pathValid : Bool) (st : BindState) : BindState × RRet :=
  if st.global_fm_info.isSome then
    ({ st with warnings := st.warnings + 1 }, .logical false)
  else if !pathValid then (st, .rerror)
  else
    match fmalloc_init env tid base st.heap false st.tls with
    | .error _ => (st, .fatal)
    | .ok (fi, wasInit, heap', tls') =>
      (⟨some fi, heap', tls', st.warnings⟩, .logical wasInit)

/-! Concrete sample inputs used to exercise the theorems below on closed
instances: a healthy environment, a zero-filled 32 MiB heap file (the spec's
concrete scenario), an already-attached heap, and a small arena. -/

/-- An environment where `stat`, `open` and `mmap` all succeed. -/
def allOk : SysEnv := ⟨true, true, true⟩

/-- The superblock bytes of a zero-filled heap file (fresh, never opened). -/
def zeroSuper : fm_super := ⟨0, 0, 0, 0, fun _ => false⟩

/-- A zero-filled 32 MiB heap file, as in the spec's concrete scenario. -/
def demoHeap : HeapState := ⟨33554432, zeroSuper, ⟨0, 0, [], []⟩⟩

/-- The heap state produced by the first open of `demoHeap`. -/
def demoHeap1 : HeapState :=
  do_ptmalloc_init { demoHeap with super := fresh_super demoHeap.super demoHeap.len }

/-- The superblock of a heap whose first open completed: magic present,
geometry set, chunk 0 committed, init-flag consumed. -/
def attachedSuper : fm_super :=
  ⟨FMALLOC_MAGIC, 33554432, FMALLOC_CHUNK_SIZE, 0, fun j => j == 0⟩

/-- A fully initialised mapped heap ready for reattachment. -/
def attachedHeap : HeapState :=
  ⟨33554432, attachedSuper,
   ⟨FMALLOC_CHUNK_SIZE, 33554432,
    [(FMALLOC_CHUNK_SIZE, 33554432 - FMALLOC_CHUNK_SIZE)], []⟩⟩

/-- All thread-local bases zero (no heap targeted yet). -/
def zeroTls : TlsBase := fun _ => 0

/-- Every thread targeting base address 10000. -/
def demoTls : TlsBase := fun _ => 10000

/-- A small arena with one free span of 960 bytes starting at offset 64. -/
def demoAlloc : AllocState := ⟨64, 1024, [(64, 960)], []⟩

/-- `demoAlloc` after a 100-byte allocation is carved from the free span. -/
def demoAlloc2 : AllocState := ⟨64, 1024, [(164, 860)], [(64, 100)]⟩

/-- A sample handle as `fmalloc_init` would return it. -/
def demoFi : fm_info := ⟨0, 4096⟩

/-- Binding-layer state in which `global_fm_info` is already set. -/
def demoBind : BindState := ⟨some demoFi, demoHeap, zeroTls, 0⟩

/-! ## Helper lemmas -/

/-- The fresh-open superblock writes leave the magic sentinel in place. -/
theorem fresh_super_magic (s : fm_super) (len : Nat) :
    (fresh_super s len).magic = FMALLOC_MAGIC := rfl

/-- Second-stage setup never touches the magic field. -/
theorem do_ptmalloc_init_magic (h : HeapState) :
    (do_ptmalloc_init h).super.magic = h.super.magic := by
  unfold do_ptmalloc_init
  split <;> rfl

/-- After second-stage setup the one-shot init-flag is always consumed:
it never reads `-1` again. -/
theorem do_ptmalloc_init_flag (h : HeapState) :
    (do_ptmalloc_init h).super.init_flag ≠ -1 := by
  unfold do_ptmalloc_init
  split
  · simp
  · assumption

/-- When the init-flag is already consumed, second-stage setup writes
nothing at all. -/
theorem do_ptmalloc_init_noop (h : HeapState) (hf : h.super.init_flag ≠ -1) :
    do_ptmalloc_init h = h := by
  unfold do_ptmalloc_init
  simp [hf]

/-- Every heap state a successful `fmalloc_init` hands back carries the
magic sentinel and a consumed init-flag: these are exactly the states the
attach path can ever see on a later open. -/
theorem open_super_ready (env : SysEnv) (tid base : Nat) (heap : HeapState)
    (init : Bool) (tls : TlsBase) (h' : HeapState)
    (hopen : openHeap (fmalloc_init env tid base heap init tls) = some h') :
    h'.super.magic = FMALLOC_MAGIC ∧ h'.super.init_flag ≠ -1 := by
  unfold fmalloc_init at hopen
  split at hopen
  · simp [openHeap] at hopen
  · split at hopen
    · simp [openHeap] at hopen
    · split at hopen
      · simp [openHeap] at hopen
      · split at hopen
        · simp [openHeap] at hopen
          refine hopen ▸ ⟨?_, do_ptmalloc_init_flag _⟩
          rw [do_ptmalloc_init_magic]
          exact fresh_super_magic _ _
        · simp [openHeap] at hopen
          rename_i hmg
          refine hopen ▸ ⟨?_, do_ptmalloc_init_flag _⟩
          rw [do_ptmalloc_init_magic]
          exact not_not.mp hmg

/-! ## Claim theorems -/

/-- C1: on a first open (the mapped magic differs from the sentinel),
`fmalloc_init` reports a fresh heap and runs exactly the fresh-open
superblock writes: the magic sentinel is stored, `total_size` becomes the
mapped file's length, `chunk_size` becomes the library-wide default, chunk 0
is marked committed in the bitmap, and `-1` is stored into the reserved
init-flag field at `FMALLOC_OFF`. -/
theorem fmalloc_init_fresh_writes (env : SysEnv) (tid base : Nat)
    (heap : HeapState) (init : Bool) (tls : TlsBase)
    (hs : env.statOk = true) (ho : env.openOk = true) (hm : env.mmapOk = true)
    (hmagic : heap.super.magic ≠ FMALLOC_MAGIC) :
    openWasFresh (fmalloc_init env tid base heap init tls) = some true ∧
    openHeap (fmalloc_init env tid base heap init tls) =
      some (do_ptmalloc_init { heap with super := fresh_super heap.super heap.len }) ∧
    (fresh_super heap.super heap.len).magic = FMALLOC_MAGIC ∧
    (fresh_super heap.super heap.len).total_size = heap.len ∧
    (fresh_super heap.super heap.len).chunk_size = FMALLOC_CHUNK_SIZE ∧
    (fresh_super heap.super heap.len).bitmap 0 = true ∧
    (fresh_super heap.super heap.len).init_flag = -1 := by
  refine ⟨?_, ?_, rfl, rfl, rfl, rfl, rfl⟩ <;>
    simp [fmalloc_init, openWasFresh, openHeap, hs, ho, hm, hmagic]

/-- Witness for C1: first open of a zero-filled 32 MiB file. -/
theorem fmalloc_init_fresh_writes_witness :
    openWasFresh (fmalloc_init allOk 0 4096 demoHeap false zeroTls) = some true ∧
    openHeap (fmalloc_init allOk 0 4096 demoHeap false zeroTls) =
      some (do_ptmalloc_init { demoHeap with super := fresh_super demoHeap.super demoHeap.len }) ∧
    (fresh_super demoHeap.super demoHeap.len).magic = FMALLOC_MAGIC ∧
    (fresh_super demoHeap.super demoHeap.len).total_size = demoHeap.len ∧
    (fresh_super demoHeap.super demoHeap.len).chunk_size = FMALLOC_CHUNK_SIZE ∧
    (fresh_super demoHeap.super demoHeap.len).bitmap 0 = true ∧
    (fresh_super demoHeap.super demoHeap.len).init_flag = -1 :=
  fmalloc_init_fresh_writes allOk 0 4096 demoHeap false zeroTls rfl rfl rfl
    (by decide)

/-- C2: opened the way `init_fmalloc_impl` does (the `wasFresh` flag starts
out `false`), a pre-sized file whose magic is absent reports
`wasFresh = true` on the first open, and the heap that open produces reports
`wasFresh = false` on any later open. -/
theorem open_twice_wasFresh (env₁ env₂ : SysEnv) (t₁ t₂ b₁ b₂ : Nat)
    (heap h₁ : HeapState) (tls₁ tls₂ : TlsBase)
    (hs₁ : env₁.statOk = true) (ho₁ : env₁.openOk = true)
    (hm₁ : env₁.mmapOk = true)
    (hs₂ : env₂.statOk = true) (ho₂ : env₂.openOk = true)
    (hm₂ : env₂.mmapOk = true)
    (hmagic : heap.super.magic ≠ FMALLOC_MAGIC)
    (hopen : openHeap (fmalloc_init env₁ t₁ b₁ heap false tls₁) = some h₁) :
    openWasFresh (fmalloc_init env₁ t₁ b₁ heap false tls₁) = some true ∧
    openWasFresh (fmalloc_init env₂ t₂ b₂ h₁ false tls₂) = some false := by
  have hmg : h₁.super.magic = FMALLOC_MAGIC :=
    (open_super_ready env₁ t₁ b₁ heap false tls₁ h₁ hopen).1
  constructor
  · simp [fmalloc_init, openWasFresh, hs₁, ho₁, hm₁, hmagic]
  · simp [fmalloc_init, openWasFresh, hs₂, ho₂, hm₂, hmg]

/-- Witness for C2: the 32 MiB zero-filled file opened twice. -/
theorem open_twice_wasFresh_witness :
    openWasFresh (fmalloc_init allOk 0 4096 demoHeap false zeroTls) = some true ∧
    openWasFresh (fmalloc_init allOk 1 8192 demoHeap1 false zeroTls) = some false :=
  open_twice_wasFresh allOk allOk 0 1 4096 8192 demoHeap demoHeap1 zeroTls zeroTls
    rfl rfl rfl rfl rfl rfl (by decide) rfl

/-- C4: on the attach path (magic already present, the one-shot secondary
init already consumed — the state every completed open leaves behind, by
`open_super_ready`), `fmalloc_init` performs no writes at all to the mapped
heap: the returned heap state, and with it the magic, `total_size`,
`chunk_size`, init-flag and bitmap, is exactly the input, and the caller's
`wasFresh` flag passes through untouched. -/
theorem attach_open_no_writes (env : SysEnv) (tid base : Nat)
    (heap : HeapState) (init : Bool) (tls : TlsBase)
    (hs : env.statOk = true) (ho : env.openOk = true) (hm : env.mmapOk = true)
    (hmg : heap.super.magic = FMALLOC_MAGIC)
    (hflag : heap.super.init_flag ≠ -1) :
    openHeap (fmalloc_init env tid base heap init tls) = some heap ∧
    openWasFresh (fmalloc_init env tid base heap init tls) = some init := by
  constructor <;>
    simp [fmalloc_init, openHeap, openWasFresh, hs, ho, hm, hmg,
      do_ptmalloc_init_noop heap hflag]

/-- Witness for C4: reattaching a fully initialised heap writes nothing. -/
theorem attach_open_no_writes_witness :
    openHeap (fmalloc_init allOk 0 4096 attachedHeap false zeroTls) =
      some attachedHeap ∧
    openWasFresh (fmalloc_init allOk 0 4096 attachedHeap false zeroTls) =
      some false :=
  attach_open_no_writes allOk 0 4096 attachedHeap false zeroTls rfl rfl rfl
    rfl (by decide)

/-- C5: the active-heap target is per-thread state: `fmalloc_set_target`
stores the handle's base for the calling thread only, every other thread's
target is untouched, and a successful `fmalloc_init` updates the
thread-local bases the same way — the calling thread now targets the newly
mapped base, all other threads keep their previous target. -/
theorem set_target_thread_local (tid tid' : Nat) (fi : fm_info)
    (tls : TlsBase) (env : SysEnv) (base : Nat) (heap : HeapState)
    (init : Bool)
    (hs : env.statOk = true) (ho : env.openOk = true) (hm : env.mmapOk = true)
    (ht : tid' ≠ tid) :
    fmalloc_set_target tid fi tls tid = fi.mem ∧
    fmalloc_set_target tid fi tls tid' = tls tid' ∧
    openTls (fmalloc_init env tid base heap init tls) =
      some (fun t => if t = tid then base else tls t) := by
  refine ⟨by simp [fmalloc_set_target], by simp [fmalloc_set_target, ht], ?_⟩
  by_cases hf : heap.super.magic ≠ FMALLOC_MAGIC <;>
    simp [fmalloc_init, openTls, hs, ho, hm, hf]

/-- Witness for C5: thread 0 retargets, thread 1 is untouched. -/
theorem set_target_thread_local_witness :
    fmalloc_set_target 0 demoFi demoTls 0 = demoFi.mem ∧
    fmalloc_set_target 0 demoFi demoTls 1 = demoTls 1 ∧
    openTls (fmalloc_init allOk 0 4096 demoHeap false demoTls) =
      some (fun t => if t = 0 then 4096 else demoTls t) :=
  set_target_thread_local 0 1 demoFi demoTls allOk 4096 demoHeap false
    rfl rfl rfl (by decide)

/-- C7: if `stat`, `open` or `mmap` fails, `fmalloc_init` terminates the
process and never returns a handle. -/
theorem fmalloc_init_env_fatal (env : SysEnv) (tid base : Nat)
    (heap : HeapState) (init : Bool) (tls : TlsBase)
    (h : env.statOk = false ∨ env.openOk = false ∨ env.mmapOk = false) :
    openReturns (fmalloc_init env tid base heap init tls) = false := by
  rcases h with h | h | h
  · simp [fmalloc_init, openReturns, h]
  · cases hstat : env.statOk <;>
      simp [fmalloc_init, openReturns, h, hstat]
  · cases hstat : env.statOk <;> cases hopn : env.openOk <;>
      simp [fmalloc_init, openReturns, h, hstat, hopn]

/-- Witness for C7: a failing `stat` yields no handle. -/
theorem fmalloc_init_env_fatal_witness :
    openReturns
      (fmalloc_init ⟨false, true, true⟩ 0 4096 demoHeap false zeroTls) =
      false :=
  fmalloc_init_env_fatal ⟨false, true, true⟩ 0 4096 demoHeap false zeroTls
    (Or.inl rfl)

/-- C8: `ffree` of a null pointer is a no-op — the arena state, free
structures and live allocations included, is returned unchanged. -/
theorem ffree_null_noop (tls : TlsBase) (tid : Nat) (s : AllocState) :
    ffree tls tid s 0 = s := by
  simp [ffree, dlfree]

/-- C9: `fmalloc` is deterministic — two runs started from identical arena
state and identical active target (the calling thread's `__fm_addr_base`)
return the same pointer and the same final state. -/
theorem fmalloc_deterministic (tls₁ tls₂ : TlsBase) (t₁ t₂ : Nat)
    (s₁ s₂ : AllocState) (n : Nat)
    (hstate : s₁ = s₂) (hbase : tls₁ t₁ = tls₂ t₂) :
    fmalloc tls₁ t₁ s₁ n = fmalloc tls₂ t₂ s₂ n := by
  subst hstate
  unfold fmalloc
  rw [hbase]

/-- Witness for C9: two threads with the same target and arena agree. -/
theorem fmalloc_deterministic_witness :
    fmalloc demoTls 0 demoAlloc 100 = fmalloc demoTls 1 demoAlloc 100 :=
  fmalloc_deterministic demoTls demoTls 0 1 demoAlloc demoAlloc 100 rfl rfl

/-- C10: `init_fmalloc_impl` is one-shot — called while `global_fm_info` is
already set, it issues one warning, returns `ScalarLogical(FALSE)`, and
leaves the global handle, the heap, and the thread-local bases unchanged
(it does not re-open or re-map the file). -/
theorem init_fmalloc_impl_one_shot (env : SysEnv) (tid base : Nat)
    (pathValid : Bool) (st : BindState) (fi : fm_info)
    (h : st.global_fm_info = some fi) :
    init_fmalloc_impl env tid base pathValid st =
      ({ st with warnings := st.warnings + 1 }, .logical false) ∧
    (init_fmalloc_impl env tid base pathValid st).1.global_fm_info = some fi ∧
    (init_fmalloc_impl env tid base pathValid st).1.heap = st.heap ∧
    (init_fmalloc_impl env tid base pathValid st).1.tls = st.tls := by
  refine ⟨?_, ?_, ?_, ?_⟩ <;> simp [init_fmalloc_impl, h]

/-- Witness for C10: a second initialisation attempt is refused. -/
theorem init_fmalloc_impl_one_shot_witness :
    init_fmalloc_impl allOk 0 4096 true demoBind =
      ({ demoBind with warnings := demoBind.warnings + 1 }, .logical false) ∧
    (init_fmalloc_impl allOk 0 4096 true demoBind).1.global_fm_info =
      some demoFi ∧
    (init_fmalloc_impl allOk 0 4096 true demoBind).1.heap = demoBind.heap ∧
    (init_fmalloc_impl allOk 0 4096 true demoBind).1.tls = demoBind.tls :=
  init_fmalloc_impl_one_shot allOk 0 4096 true demoBind demoFi rfl

/-- First-fit always hands out the offset of some free span large enough for
the request. -/
theorem allocFirstFit_sound (fl : List Span) (n off : Nat) (fl' : List Span)
    (h : allocFirstFit fl n = some (off, fl')) :
    ∃ sz, (off, sz) ∈ fl ∧ n ≤ sz := by
  induction fl generalizing off fl' with
  | nil => simp [allocFirstFit] at h
  | cons hd tl ih =>
    obtain ⟨o, sz⟩ := hd
    rw [allocFirstFit] at h
    split at h
    · rename_i hle
      simp only [Option.some.injEq, Prod.mk.injEq] at h
      obtain ⟨ho, -⟩ := h
      subst ho
      exact ⟨sz, List.mem_cons_self _ _, hle⟩
    · revert h
      cases hrec : allocFirstFit tl n with
      | none => intro h; simp at h
      | some pr =>
        obtain ⟨q, rest'⟩ := pr
        intro h
        simp only [Option.some.injEq, Prod.mk.injEq] at h
        obtain ⟨hq, -⟩ := h
        subst hq
        obtain ⟨sz', hmem, hn⟩ := ih _ _ hrec
        exact ⟨sz', List.mem_cons_of_mem _ hmem, hn⟩

/-- C3: every successful `fmalloc` result lies inside the targeted heap:
with the arena well-formed and contained in the first `total` bytes of the
mapping, the returned pointer `p` satisfies `base <= p` and
`p + n <= base + total` where `base` is the calling thread's active target —
consequently the allocation cannot touch any byte of a heap mapped at a
disjoint range (two distinct mappings never interleave), which is the
two-heap isolation property. -/
theorem fmalloc_in_target_bounds (tls : TlsBase) (tid : Nat) (s : AllocState)
    (n total p : Nat) (s' : AllocState)
    (hWF : s.WF) (harena : s.arenaEnd ≤ total)
    (halloc : fmalloc tls tid s n = (some p, s')) :
    tls tid ≤ p ∧ p + n ≤ tls tid + total ∧
    ∀ baseB totalB, baseB + totalB ≤ tls tid ∨ tls tid + total ≤ baseB →
      ∀ a, p ≤ a → a < p + n → ¬(baseB ≤ a ∧ a < baseB + totalB) := by
  unfold fmalloc dlmalloc at halloc
  cases hfit : allocFirstFit s.freeList n with
  | none => rw [hfit] at halloc; simp at halloc
  | some pr =>
    obtain ⟨off, fl'⟩ := pr
    rw [hfit] at halloc
    simp only [Prod.mk.injEq, Option.some.injEq] at halloc
    obtain ⟨hp, -⟩ := halloc
    obtain ⟨sz, hmem, hn⟩ := allocFirstFit_sound s.freeList n off fl' hfit
    obtain ⟨-, hhi⟩ := hWF _ hmem
    subst hp
    refine ⟨Nat.le_add_right _ _, by omega, ?_⟩
    intro baseB totalB hdis a ha₁ ha₂
    omega

/-- Witness for C3: a 100-byte allocation from a 1024-byte heap targeted at
base 10000 stays inside `[10000, 11024)` and misses any disjoint range. -/
theorem fmalloc_in_target_bounds_witness :
    demoAlloc.WF ∧ demoAlloc.arenaEnd ≤ 1024 ∧
    (demoTls 0 ≤ 10064 ∧ 10064 + 100 ≤ demoTls 0 + 1024 ∧
     ∀ baseB totalB, baseB + totalB ≤ demoTls 0 ∨ demoTls 0 + 1024 ≤ baseB →
       ∀ a, 10064 ≤ a → a < 10064 + 100 → ¬(baseB ≤ a ∧ a < baseB + totalB)) :=
  ⟨by decide, by decide,
   fmalloc_in_target_bounds demoTls 0 demoAlloc 100 1024 10064 demoAlloc2
     (by decide) (by decide) rfl⟩

/-- C6: round-trip reuse — if `fmalloc n` succeeds returning `p`, then after
`ffree p` the very next `fmalloc n` succeeds as well (here it returns the
same address `p`, which the spec permits): the freed span is immediately
reusable and the prior allocation leaves no blocking residue. -/
theorem fmalloc_free_fmalloc_succeeds (tls : TlsBase) (tid n p : Nat)
    (s s₁ : AllocState)
    (hb : 0 < tls tid)
    (halloc : fmalloc tls tid s n = (some p, s₁)) :
    (fmalloc tls tid (ffree tls tid s₁ p) n).1 = some p := by
  unfold fmalloc dlmalloc at halloc
  cases hfit : allocFirstFit s.freeList n with
  | none => rw [hfit] at halloc; simp at halloc
  | some pr =>
    obtain ⟨off, fl'⟩ := pr
    rw [hfit] at halloc
    simp only [Prod.mk.injEq, Option.some.injEq] at halloc
    obtain ⟨hp, hs₁⟩ := halloc
    subst hp hs₁
    have hpz : ¬(tls tid + off = 0) := by omega
    have hfree :
        ffree tls tid
            { s with freeList := fl', live := (off, n) :: s.live }
            (tls tid + off) =
          { s with
              freeList := (off, n) :: fl',
              live :=
                ((off, n) :: s.live).eraseP
                  (fun q => tls tid + q.1 == tls tid + off) } := by
      simp [ffree, dlfree, hpz, List.find?_cons_of_pos]
    rw [hfree]
    unfold fmalloc dlmalloc
    rw [allocFirstFit]
    simp

/-- Witness for C6: free the 100-byte block at 10064 and get it back. -/
theorem fmalloc_free_fmalloc_succeeds_witness :
    0 < demoTls 0 ∧
    (fmalloc demoTls 0 (ffree demoTls 0 demoAlloc2 10064) 100).1 =
      some 10064 :=
  ⟨by decide,
   fmalloc_free_fmalloc_succeeds demoTls 0 100 10064 demoAlloc demoAlloc2
     (by decide) rfl⟩
